import Mathlib

/-!
Verification development for the nitox transport layer
(`src/codec.rs`, `src/net/mod.rs`, `src/net/connection.rs`,
`src/net/connection_inner.rs`).

Shallow embedding conventions:
* bytes are `Nat`s (the relevant comparisons are with `0x20 = 32` and
  `0x09 = 9`); byte buffers are `List Nat`;
* the external frame parser (`Op::from_bytes` / `Op::into_bytes` of the
  `protocol` crate, an external collaborator) is passed in as a function
  parameter, so theorems quantify over every possible parser behavior;
* fallible Rust code returning `Result` is embedded with `Except`;
  a Rust `panic!`/`unwrap` failure is embedded as `Option.none`;
* `&mut self` methods are embedded as state-passing functions returning
  the updated value alongside the result.
-/

/-- `CommandError` of the external `protocol` crate: the parser's error type.
`IncompleteCommandError` is the "need more bytes" signal; every other
error is a structural (malformed-data) error, abstracted by a code. -/
inductive CommandError where
  | IncompleteCommandError : CommandError
  | otherError (code : Nat) : CommandError
deriving DecidableEq

/-- `NatsError` (`error.rs`, not under `src/`): only the shape matters here.
`ServerDisconnected` is the disconnection condition matched by the resilient
connection; `CommandError e` is the image of a parser error under
`e.into()`; `otherErr` abstracts every remaining variant. -/
inductive NatsError where
  | ServerDisconnected (code : Nat) : NatsError
  | CommandError (e : CommandError) : NatsError
  | otherErr (code : Nat) : NatsError
deriving DecidableEq

/-- `OpCodec` (src/codec.rs lines 6-9): the streaming frame codec.
Its only state is `next_index`, the scan cursor. -/
structure OpCodec where
  next_index : Nat
deriving DecidableEq

/-- `OpCodec::default()`: `next_index = 0` (derived `Default` on a `usize`). -/
def OpCodec.deflt : OpCodec := { next_index := 0 }

/-- `OpCodec::new()` (src/codec.rs lines 12-14): `OpCodec::default()`. -/
def OpCodec.new : OpCodec := OpCodec.deflt

/-- The delimiter predicate of src/codec.rs line 38:
`*b == b' ' || *b == b'\t'` (space `0x20 = 32`, tab `0x09 = 9`). -/
def isDelim (b : Nat) : Bool := b == 32 || b == 9

/-- `Decoder::decode` for `OpCodec` (src/codec.rs lines 37-58), embedded with
the external parser `Op::from_bytes` as the parameter `from_bytes`.

Line-by-line correspondence:
* `buf[self.next_index..].iter().position(|b| *b == b' ' || *b == b'\t')`
  is `(buf.drop c.next_index).findIdx? isDelim` (a position relative to the
  start of the slice, i.e. to the cursor);
* `Op::from_bytes(&buf[..command_offset])` is
  `from_bytes (buf.take command_offset)` — note the Rust code indexes the
  relative offset into the full buffer;
* the three match arms map `Ok`, `Err(IncompleteCommandError)` and
  `Err(e)` exactly as in the source, updating `next_index` as written there;
* the `else` branch (no delimiter) sets `next_index = buf.len()` and
  returns `Ok(None)`.

Result: the updated codec paired with `Result<Option<Op>, NatsError>`. -/
def OpCodec.decode {Op : Type}
    (from_bytes : List Nat → Except CommandError (Option Op))
    (c : OpCodec) (buf : List Nat) :
    OpCodec × Except NatsError (Option Op) :=
  match (buf.drop c.next_index).findIdx? isDelim with
  | some command_offset =>
      match from_bytes (buf.take command_offset) with
      | .ok maybe_op => (c, .ok maybe_op)
      | .error .IncompleteCommandError =>
          ({ next_index := buf.length }, .ok none)
      | .error e =>
          ({ next_index := 0 }, .error (NatsError.CommandError e))
  | none =>
      ({ next_index := buf.length }, .ok none)

/-- `BytesMut` of the `bytes` crate (v0.4), modelled as its readable content
plus a capacity. Invariant of the real type: `data.length ≤ cap`. -/
structure BytesMut where
  data : List Nat
  cap : Nat
deriving DecidableEq

/-- `BytesMut::remaining_mut()`: spare capacity. -/
def BytesMut.remaining_mut (b : BytesMut) : Nat := b.cap - b.data.length

/-- `BytesMut::reserve(additional)`: afterwards at least `additional` bytes
of spare capacity are available; content is untouched. -/
def BytesMut.reserve (b : BytesMut) (additional : Nat) : BytesMut :=
  { b with cap := max b.cap (b.data.length + additional) }

/-- `BufMut::put(src)` on `BytesMut` (bytes v0.4): appends `src`, panicking
(`none`) when spare capacity is insufficient. -/
def BytesMut.put (b : BytesMut) (src : List Nat) : Option BytesMut :=
  if src.length ≤ b.remaining_mut then
    some { b with data := b.data ++ src }
  else
    none

/-- `Encoder::encode` for `OpCodec` (src/codec.rs lines 21-30), with the
external serializer `Op::into_bytes` as the parameter `into_bytes`.
The first component is the `Result<(), NatsError>` return value; the second
is the destination buffer after the call (`none` embeds a `put` panic). -/
def OpCodec.encode {Op : Type}
    (into_bytes : Op → Except NatsError (List Nat))
    (_c : OpCodec) (item : Op) (dst : BytesMut) :
    Except NatsError Unit × Option BytesMut :=
  match into_bytes item with
  | .error e => (.error e, some dst)
  | .ok buf =>
      let buf_len := buf.length
      let remaining_bytes := dst.remaining_mut
      let dst1 := if remaining_bytes < buf_len then dst.reserve buf_len else dst
      match dst1.put buf with
      | some dst2 => (.ok (), some dst2)
      | none => (.ok (), none)

/-- `FramedParts` of `tokio_codec`: the raw io, the codec, and the
unconsumed read/write byte buffers of a framed stream. -/
structure FramedParts (Io : Type) where
  io : Io
  codec : OpCodec
  read_buf : List Nat
  write_buf : List Nat
deriving DecidableEq

/-- `FramedParts::new(io, codec)`: empty read/write buffers. -/
def FramedParts.mkNew {Io : Type} (io : Io) (codec : OpCodec) : FramedParts Io :=
  { io := io, codec := codec, read_buf := [], write_buf := [] }

/-- `Framed` of `tokio_codec`, identified with its parts. -/
structure Framed (Io : Type) where
  parts : FramedParts Io
deriving DecidableEq

/-- `Framed::into_parts()`. -/
def Framed.into_parts {Io : Type} (f : Framed Io) : FramedParts Io := f.parts

/-- `Framed::from_parts(parts)`. -/
def Framed.from_parts {Io : Type} (p : FramedParts Io) : Framed Io := ⟨p⟩

/-- `codec.framed(socket)` (`Decoder::framed`): a fresh framed stream with
empty buffers. -/
def OpCodec.framed {Io : Type} (codec : OpCodec) (socket : Io) : Framed Io :=
  Framed.from_parts (FramedParts.mkNew socket codec)

/-- `NatsConnectionInner` (src/net/connection_inner.rs lines 16-21): sum of a
TCP framed stream and a TLS framed stream; the TLS variant additionally
carries `Option<Op>`, the pending first frame. `TcpIo` and `TlsIo` stand for
the opaque socket types `TcpStream` and `TlsStream<TcpStream>`. -/
inductive NatsConnectionInner (TcpIo TlsIo Op : Type) where
  | Tcp (framed : Framed TcpIo) : NatsConnectionInner TcpIo TlsIo Op
  | Tls (framed : Framed TlsIo) (op : Option Op) : NatsConnectionInner TcpIo TlsIo Op
deriving DecidableEq

/-- `impl From<TcpStream> for NatsConnectionInner`
(src/net/connection_inner.rs lines 93-97):
`NatsConnectionInner::Tcp(OpCodec::default().framed(socket))`. -/
def NatsConnectionInner.fromTcpStream {TcpIo TlsIo Op : Type} (socket : TcpIo) :
    NatsConnectionInner TcpIo TlsIo Op :=
  NatsConnectionInner.Tcp (OpCodec.deflt.framed socket)

/-- `NatsConnectionInner::first_op` (src/net/connection_inner.rs lines
84-90). It takes `&self` (a shared borrow: the variant cannot be mutated by
the call), and returns a clone of the TLS variant's pending op, `None` on
the TCP variant. -/
def NatsConnectionInner.first_op {TcpIo TlsIo Op : Type} :
    NatsConnectionInner TcpIo TlsIo Op → Option Op
  | .Tls _ op => op
  | _ => none

/-- The inner closure of `connect_and_upgrade_if_required`
(src/net/connection_inner.rs lines 60-76): given the frame `op` read from
the plaintext stream (the `(op, inner)` yielded by `inner.into_future()`)
and the outcome `upgrade` of `Self::upgrade_tcp_to_tls` (an external
collaborator, here a function on the raw socket, modelling the successful
handshake path), rebuilds the framed stream:
* `framed.into_parts()` extracts `(socket, read_buf, write_buf)`;
* `FramedParts::new(socket_tls, OpCodec::default())` then the two buffer
  assignments re-seed the new parts;
* the result is `NatsConnectionInner::Tls((Framed::from_parts(new_parts), op))`.
On a non-TCP inner the stream is returned unchanged (`_ => Either::B`). -/
def NatsConnectionInner.upgradeAfterFirstOp {TcpIo TlsIo Op : Type}
    (upgrade : TcpIo → TlsIo) (op : Option Op) :
    NatsConnectionInner TcpIo TlsIo Op → NatsConnectionInner TcpIo TlsIo Op
  | .Tcp framed =>
      let old_parts := framed.into_parts
      let socket := old_parts.io
      let read_buf := old_parts.read_buf
      let write_buf := old_parts.write_buf
      let socket_tls := upgrade socket
      let new_parts :=
        { FramedParts.mkNew socket_tls OpCodec.deflt with
            read_buf := read_buf, write_buf := write_buf }
      NatsConnectionInner.Tls (Framed.from_parts new_parts) op
  | inner => inner

/-- `NatsConnectionInner::connect_and_upgrade_if_required`
(src/net/connection_inner.rs lines 51-82), success path, with the effectful
collaborators as parameters:
* `tcp_socket` — the `TcpStream` produced by `Self::connect_tcp(&addr)`;
* `read_first_frame` — the `inner.into_future()` step: from the plaintext
  stream it yields the first decoded frame and the stream's state after the
  read (buffers possibly filled by the read loop);
* `upgrade` — `Self::upgrade_tcp_to_tls` on the extracted raw socket.
When `host` is `None` the plaintext variant is returned unchanged. -/
def NatsConnectionInner.connect_and_upgrade_if_required {TcpIo TlsIo Op : Type}
    (host : Option String) (tcp_socket : TcpIo)
    (read_first_frame : NatsConnectionInner TcpIo TlsIo Op →
      Option Op × NatsConnectionInner TcpIo TlsIo Op)
    (upgrade : TcpIo → TlsIo) :
    NatsConnectionInner TcpIo TlsIo Op :=
  let inner : NatsConnectionInner TcpIo TlsIo Op :=
    NatsConnectionInner.fromTcpStream tcp_socket
  match host with
  | some _host =>
      let res := read_first_frame inner
      NatsConnectionInner.upgradeAfterFirstOp upgrade res.1 res.2
  | none => inner

/-- `NatsClientTlsConfig` (src/net/mod.rs lines 19-22): optional PKCS#12
identity bytes with their password, and optional DER root-certificate
bytes (the `Arc` sharing wrappers carry no semantics here). -/
structure NatsClientTlsConfig where
  identity : Option (List Nat × String)
  root_cert : Option (List Nat)
deriving DecidableEq

/-- `NatsClientTlsConfig::default()`: both fields `None`. -/
def NatsClientTlsConfig.deflt : NatsClientTlsConfig :=
  { identity := none, root_cert := none }

/-- `NatsClientTlsConfig::identity()` (src/net/mod.rs lines 43-49), with the
external validator `Identity::from_pkcs12` (of `native_tls`) as the
parameter `from_pkcs12`. -/
def NatsClientTlsConfig.identityM {Identity : Type}
    (from_pkcs12 : List Nat → String → Except NatsError Identity)
    (c : NatsClientTlsConfig) : Except NatsError (Option Identity) :=
  match c.identity with
  | some bp =>
      match from_pkcs12 bp.1 bp.2 with
      | .ok i => .ok (some i)
      | .error e => .error e
  | none => .ok none

/-- `NatsClientTlsConfig::root_cert()` (src/net/mod.rs lines 51-57), with
the external validator `Certificate::from_der` as `from_der`. -/
def NatsClientTlsConfig.root_certM {Certificate : Type}
    (from_der : List Nat → Except NatsError Certificate)
    (c : NatsClientTlsConfig) : Except NatsError (Option Certificate) :=
  match c.root_cert with
  | some b =>
      match from_der b with
      | .ok cert => .ok (some cert)
      | .error e => .error e
  | none => .ok none

/-- `NatsClientTlsConfig::pkcs12_identity` (src/net/mod.rs lines 26-32):
stores the bytes and password, then eagerly validates via `self.identity()?`
before returning the updated configuration. -/
def NatsClientTlsConfig.pkcs12_identity {Identity : Type}
    (from_pkcs12 : List Nat → String → Except NatsError Identity)
    (c : NatsClientTlsConfig) (der_bytes : List Nat) (password : String) :
    Except NatsError NatsClientTlsConfig :=
  let c2 := { c with identity := some (der_bytes, password) }
  match c2.identityM from_pkcs12 with
  | .ok _ => .ok c2
  | .error e => .error e

/-- `NatsClientTlsConfig::root_cert_der` (src/net/mod.rs lines 35-41):
stores the bytes, then eagerly validates via `self.root_cert()?`. -/
def NatsClientTlsConfig.root_cert_der {Certificate : Type}
    (from_der : List Nat → Except NatsError Certificate)
    (c : NatsClientTlsConfig) (der_bytes : List Nat) :
    Except NatsError NatsClientTlsConfig :=
  let c2 := { c with root_cert := some der_bytes }
  match c2.root_certM from_der with
  | .ok _ => .ok c2
  | .error e => .error e

/-- `Result::unwrap()`: the value on `Ok`, a panic (`none`) on `Err`. -/
def Except.unwrapOrPanic {ε α : Type} : Except ε α → Option α
  | .ok a => some a
  | .error _ => none

/-- The configuration-material phase of `upgrade_tcp_to_tls`
(src/net/connection_inner.rs lines 36-43): `config.identity().unwrap()` and
`config.root_cert().unwrap()`, in that order; `none` embeds a panic of
either unwrap. The later `builder.build().unwrap()` and the handshake are
external collaborators outside this phase. -/
def upgradeTlsConfigPhase {Identity Certificate : Type}
    (from_pkcs12 : List Nat → String → Except NatsError Identity)
    (from_der : List Nat → Except NatsError Certificate)
    (config : NatsClientTlsConfig) :
    Option (Option Identity × Option Certificate) := do
  let i ← (config.identityM from_pkcs12).unwrapOrPanic
  let c ← (config.root_certM from_der).unwrapOrPanic
  pure (i, c)

/-- Configurations reachable through the public constructors: start from
`Default` and apply any sequence of successful `pkcs12_identity` /
`root_cert_der` calls (the only ways src/net/mod.rs lets a caller set the
fields). -/
inductive NatsClientTlsConfig.Built {Identity Certificate : Type}
    (from_pkcs12 : List Nat → String → Except NatsError Identity)
    (from_der : List Nat → Except NatsError Certificate) :
    NatsClientTlsConfig → Prop where
  | deflt : NatsClientTlsConfig.Built from_pkcs12 from_der NatsClientTlsConfig.deflt
  | pkcs12 {c c2 : NatsClientTlsConfig} {d : List Nat} {p : String} :
      NatsClientTlsConfig.Built from_pkcs12 from_der c →
      c.pkcs12_identity from_pkcs12 d p = .ok c2 →
      NatsClientTlsConfig.Built from_pkcs12 from_der c2
  | rootCert {c c2 : NatsClientTlsConfig} {d : List Nat} :
      NatsClientTlsConfig.Built from_pkcs12 from_der c →
      c.root_cert_der from_der d = .ok c2 →
      NatsClientTlsConfig.Built from_pkcs12 from_der c2

/-- `NatsConnectionState` (src/net/connection.rs lines 24-28). -/
inductive NatsConnectionState where
  | Connected : NatsConnectionState
  | Reconnecting : NatsConnectionState
  | Disconnected : NatsConnectionState
deriving DecidableEq

/-- `NatsConnection` (src/net/connection.rs lines 32-49). `Addr` stands for
the opaque `SocketAddr`; `Inner` for `NatsConnectionInner` (kept abstract so
the delegated operations can be quantified over); the `Arc<RwLock<…>>`
wrappers around `inner` and `state` are dissolved into plain fields of the
sequential model, lock acquisition being modelled at each operation. -/
structure NatsConnection (Addr Inner Op : Type) where
  is_tls : Bool
  addr : Addr
  host : Option String
  first_op : Option Op
  tls_config : NatsClientTlsConfig
  inner : Inner
  state : NatsConnectionState

/-- First statement of the `reco!` macro (src/net/connection.rs line 13):
`*$conn.state.write() = NatsConnectionState::Disconnected`. -/
def NatsConnection.recoSetDisconnected {Addr I Op : Type}
    (c : NatsConnection Addr I Op) : NatsConnection Addr I Op :=
  { c with state := NatsConnectionState.Disconnected }

/-- First statement of `NatsConnection::reconnect` (src/net/connection.rs
line 55): `*self.state.write() = NatsConnectionState::Reconnecting`. It runs
synchronously when `reco!` calls `reconnect()` to build the future handed to
`tokio_executor::spawn` (line 15), before the spawned future is polled. -/
def NatsConnection.reconnectBegin {Addr I Op : Type}
    (c : NatsConnection Addr I Op) : NatsConnection Addr I Op :=
  { c with state := NatsConnectionState.Reconnecting }

/-- Success continuation of the reconnection future (src/net/connection.rs
lines 62-66): `*inner_arc.write() = inner; *inner_state.write() = Connected`
with the freshly built transport. -/
def NatsConnection.reconnectPublish {Addr I Op : Type}
    (c : NatsConnection Addr I Op) (newInner : I) : NatsConnection Addr I Op :=
  { c with inner := newInner, state := NatsConnectionState.Connected }

/-- The synchronous effect of the whole `reco!` macro (src/net/connection.rs
lines 11-20): set `Disconnected`, then `reconnect()` immediately sets
`Reconnecting`; the rest of the reconnection future runs detached. -/
def NatsConnection.reco {Addr I Op : Type}
    (c : NatsConnection Addr I Op) : NatsConnection Addr I Op :=
  c.recoSetDisconnected.reconnectBegin

/-- `AsyncSink` of futures 0.1: `Ready` (item accepted) or `NotReady(item)`
(item handed back). -/
inductive AsyncSink (α : Type) where
  | Ready : AsyncSink α
  | NotReady (item : α) : AsyncSink α
deriving DecidableEq

/-- `Async` of futures 0.1: `Ready(value)` or `NotReady`. -/
inductive Async (α : Type) where
  | Ready (val : α) : Async α
  | NotReady : Async α
deriving DecidableEq

/-- The state guard repeated at the head of `start_send`, `poll_complete`
and `poll` (src/net/connection.rs lines 78-81, 99-102, 125-128):
`match self.state.try_read() { Some(state) => *state != Connected, _ => true }`.
`state_lock_ok` models whether `try_read` acquires the lock. -/
def NatsConnection.stateGateClosed {Addr I Op : Type}
    (state_lock_ok : Bool) (c : NatsConnection Addr I Op) : Bool :=
  match (if state_lock_ok then some c.state else none) with
  | some s => decide (s ≠ NatsConnectionState.Connected)
  | none => true

/-- `Sink::start_send` for `NatsConnection` (src/net/connection.rs lines
77-96). `state_lock_ok` / `inner_lock_ok` model the outcomes of
`state.try_read()` / `inner.try_write()`; `inner_start_send` is the
delegated `Sink::start_send` of `NatsConnectionInner`, returning its result
and the transport's state after the call (it is mutated through the write
lock). On `Err(ServerDisconnected)` the `reco!` macro runs and the call
returns `Ok(AsyncSink::NotReady(item))`; every other result is returned
unchanged. -/
def NatsConnection.start_send {Addr I Op : Type}
    (state_lock_ok inner_lock_ok : Bool)
    (inner_start_send : I → Op → Except NatsError (AsyncSink Op) × I)
    (c : NatsConnection Addr I Op) (item : Op) :
    Except NatsError (AsyncSink Op) × NatsConnection Addr I Op :=
  if c.stateGateClosed state_lock_ok then
    (.ok (.NotReady item), c)
  else if inner_lock_ok then
    match inner_start_send c.inner item with
    | (.error (.ServerDisconnected _), inner2) =>
        (.ok (.NotReady item), ({ c with inner := inner2 }).reco)
    | (poll_res, inner2) => (poll_res, { c with inner := inner2 })
  else
    (.ok (.NotReady item), c)

/-- `Sink::poll_complete` for `NatsConnection` (src/net/connection.rs lines
98-117), same modelling as `start_send`. -/
def NatsConnection.poll_complete {Addr I Op : Type}
    (state_lock_ok inner_lock_ok : Bool)
    (inner_poll_complete : I → Except NatsError (Async Unit) × I)
    (c : NatsConnection Addr I Op) :
    Except NatsError (Async Unit) × NatsConnection Addr I Op :=
  if c.stateGateClosed state_lock_ok then
    (.ok .NotReady, c)
  else if inner_lock_ok then
    match inner_poll_complete c.inner with
    | (.error (.ServerDisconnected _), inner2) =>
        (.ok .NotReady, ({ c with inner := inner2 }).reco)
    | (poll_res, inner2) => (poll_res, { c with inner := inner2 })
  else
    (.ok .NotReady, c)

/-- `Stream::poll` for `NatsConnection` (src/net/connection.rs lines
124-143), same modelling as `start_send`. -/
def NatsConnection.poll {Addr I Op : Type}
    (state_lock_ok inner_lock_ok : Bool)
    (inner_poll : I → Except NatsError (Async (Option Op)) × I)
    (c : NatsConnection Addr I Op) :
    Except NatsError (Async (Option Op)) × NatsConnection Addr I Op :=
  if c.stateGateClosed state_lock_ok then
    (.ok .NotReady, c)
  else if inner_lock_ok then
    match inner_poll c.inner with
    | (.error (.ServerDisconnected _), inner2) =>
        (.ok .NotReady, ({ c with inner := inner2 }).reco)
    | (poll_res, inner2) => (poll_res, { c with inner := inner2 })
  else
    (.ok .NotReady, c)

/-- The state transitions of `NatsConnection`, one constructor per
state-write site in src/net/connection.rs:
* `stepDisconnect` — `reco!` line 13; it is reached only from a delegated
  operation, which required the observed state to be `Connected`;
* `stepReconnectBegin` — `reconnect` line 55, invoked by `reco!` right
  after the `Disconnected` write;
* `stepReconnectSuccess` — lines 62-66, the detached task completing with a
  fresh transport, entered only while `Reconnecting`.
(The only other write, the initial `Connected` of src/net/mod.rs lines
79/98, creates the connection rather than transitioning it.) -/
inductive NatsConnection.Step {Addr I Op : Type} :
    NatsConnection Addr I Op → NatsConnection Addr I Op → Prop where
  | stepDisconnect (c : NatsConnection Addr I Op) :
      c.state = NatsConnectionState.Connected →
      NatsConnection.Step c c.recoSetDisconnected
  | stepReconnectBegin (c : NatsConnection Addr I Op) :
      c.state = NatsConnectionState.Disconnected →
      NatsConnection.Step c c.reconnectBegin
  | stepReconnectSuccess (c : NatsConnection Addr I Op) (newInner : I) :
      c.state = NatsConnectionState.Reconnecting →
      NatsConnection.Step c (c.reconnectPublish newInner)

/-!
## Claim theorems

Concrete instantiations of the external parser used below.
-/

/-- A parser that returns the verb span it was handed, unchanged: its
output exposes exactly the bytes `decode` passed to the external parser. -/
def spanParser : List Nat → Except CommandError (Option (List Nat)) :=
  fun s => .ok (some s)

/-- A parser that always reports "incomplete, need more bytes". -/
def incompleteParser : List Nat → Except CommandError (Option Nat) :=
  fun _ => .error CommandError.IncompleteCommandError

/-- A parser that always reports a structural (malformed-data) error. -/
def malformedParser : List Nat → Except CommandError (Option Nat) :=
  fun _ => .error (CommandError.otherError 1)

/-- The byte buffer "PING pong": `P I N G ␣ p o n g`, first delimiter
(space, `0x20`) at index 4. -/
def pingBuf : List Nat := [80, 73, 78, 71, 32, 112, 111, 110, 103]

/-- C1: the claim fails on the code, and the spec ("everything to the left
of the delimiter is handed to the external parser as the verb span") is the
evident intent — a code bug. Run shown: a fresh codec decodes "PIN" (no
delimiter, the cursor advances to 3); the buffer then grows to "PING pong".
The first delimiter in the buffer (equally: the first at or after the
cursor) sits at index 4, so the claimed verb span is
`buffer[..4] = "PING"`; but `decode` hands the parser `buffer[..1] = "P"`:
`position` returns the offset relative to the cursor (here 1), and the code
uses it as an index from the start of the buffer. -/
theorem C1_decode_hands_relative_prefix :
    OpCodec.decode spanParser { next_index := 0 } [80, 73, 78] =
      ({ next_index := 3 }, .ok none) ∧
    pingBuf.findIdx? isDelim = some 4 ∧
    OpCodec.decode spanParser { next_index := 3 } pingBuf =
      ({ next_index := 3 }, .ok (some [80])) ∧
    [80] ≠ pingBuf.take 4 :=
  ⟨rfl, rfl, rfl, by decide⟩

/-- C4: when the scan finds no delimiter in the unscanned region, and
likewise when the parser reports "incomplete", `decode` sets the cursor to
the buffer length and returns `Ok(None)` (no frame yet, not an error); a
second `decode` on the same buffer (with any parser behavior at all, which
shows the already-examined prefix is not re-scanned nor re-parsed: the
region scanned is `buf[len..] = []`) again returns `Ok(None)` with the
cursor still equal to the buffer length. -/
theorem C4_decode_no_frame_idempotent {Op : Type}
    (from_bytes from_bytes2 : List Nat → Except CommandError (Option Op))
    (c : OpCodec) (buf : List Nat) :
    ((buf.drop c.next_index).findIdx? isDelim = none →
      OpCodec.decode from_bytes c buf = ({ next_index := buf.length }, .ok none)) ∧
    (∀ k, (buf.drop c.next_index).findIdx? isDelim = some k →
      from_bytes (buf.take k) = .error CommandError.IncompleteCommandError →
      OpCodec.decode from_bytes c buf = ({ next_index := buf.length }, .ok none)) ∧
    OpCodec.decode from_bytes2 { next_index := buf.length } buf =
      ({ next_index := buf.length }, .ok none) := by
  refine ⟨fun h => ?_, fun k hk hinc => ?_, ?_⟩
  · simp [OpCodec.decode, h]
  · simp [OpCodec.decode, hk, hinc]
  · simp [OpCodec.decode, List.drop_length]

/-- C4 witness: the no-delimiter case ("PIN"), the parser-incomplete case
("PING pong" with an always-incomplete parser), and the idempotent second
call, at concrete inputs. -/
theorem C4_decode_no_frame_idempotent_witness :
    OpCodec.decode spanParser { next_index := 0 } [80, 73, 78] =
      ({ next_index := 3 }, .ok none) ∧
    OpCodec.decode incompleteParser { next_index := 0 } pingBuf =
      ({ next_index := 9 }, .ok none) ∧
    OpCodec.decode incompleteParser { next_index := 9 } pingBuf =
      ({ next_index := 9 }, .ok none) :=
  ⟨(C4_decode_no_frame_idempotent spanParser spanParser
      { next_index := 0 } [80, 73, 78]).1 rfl,
   (C4_decode_no_frame_idempotent incompleteParser incompleteParser
      { next_index := 0 } pingBuf).2.1 4 rfl rfl,
   (C4_decode_no_frame_idempotent incompleteParser incompleteParser
      { next_index := 0 } pingBuf).2.2⟩

/-- C5: when the parser reports a structural (non-incomplete) error,
`decode` resets the scan cursor to 0 and propagates that error
(`e.into()`); with the cursor at 0 the next call scans from the beginning
of whatever buffer it receives. -/
theorem C5_decode_parse_error_resets_cursor {Op : Type}
    (from_bytes : List Nat → Except CommandError (Option Op))
    (c : OpCodec) (buf : List Nat) (k : Nat) (e : CommandError)
    (hk : (buf.drop c.next_index).findIdx? isDelim = some k)
    (he : from_bytes (buf.take k) = .error e)
    (hne : e ≠ CommandError.IncompleteCommandError) :
    OpCodec.decode from_bytes c buf =
      ({ next_index := 0 }, .error (NatsError.CommandError e)) := by
  cases e with
  | IncompleteCommandError => exact absurd rfl hne
  | otherError code => simp [OpCodec.decode, hk, he]

/-- C5 witness: a structurally-failing parser on "PING pong" from cursor 0. -/
theorem C5_decode_parse_error_resets_cursor_witness :
    OpCodec.decode malformedParser { next_index := 0 } pingBuf =
      ({ next_index := 0 },
       .error (NatsError.CommandError (CommandError.otherError 1))) :=
  C5_decode_parse_error_resets_cursor malformedParser { next_index := 0 }
    pingBuf 4 (CommandError.otherError 1) rfl rfl (by decide)

/-- C10: when the parser succeeds, `decode` returns the parser's result and
leaves the codec — in particular the scan cursor — exactly as it was:
the `Ok(maybe_op) => Ok(maybe_op)` arm performs no cursor update. -/
theorem C10_decode_success_keeps_cursor {Op : Type}
    (from_bytes : List Nat → Except CommandError (Option Op))
    (c : OpCodec) (buf : List Nat) (k : Nat) (maybe_op : Option Op)
    (hk : (buf.drop c.next_index).findIdx? isDelim = some k)
    (hok : from_bytes (buf.take k) = .ok maybe_op) :
    OpCodec.decode from_bytes c buf = (c, .ok maybe_op) := by
  simp [OpCodec.decode, hk, hok]

/-- C10 witness: the span-returning parser on "PING pong" from cursor 0;
the codec comes back with the cursor still 0. -/
theorem C10_decode_success_keeps_cursor_witness :
    OpCodec.decode spanParser { next_index := 0 } pingBuf =
      ({ next_index := 0 }, .ok (some [80, 73, 78, 71])) :=
  C10_decode_success_keeps_cursor spanParser { next_index := 0 } pingBuf 4
    (some [80, 73, 78, 71]) rfl rfl

/-- C6: on successful serialization, `encode` appends the full serialized
bytes after the prior content (growing capacity exactly when spare capacity
is insufficient — the resulting capacity is `max cap (len + serialized)` in
both branches, and the `put` never panics); on serialization failure the
`?` operator returns the error before `dst` is touched. The hypothesis is
the `BytesMut` representation invariant (content fits capacity). -/
theorem C6_encode_appends_or_untouched {Op : Type}
    (into_bytes : Op → Except NatsError (List Nat))
    (c : OpCodec) (item : Op) (dst : BytesMut)
    (hinv : dst.data.length ≤ dst.cap) :
    (∀ buf, into_bytes item = .ok buf →
      OpCodec.encode into_bytes c item dst =
        (.ok (), some { data := dst.data ++ buf,
                        cap := max dst.cap (dst.data.length + buf.length) })) ∧
    (∀ e, into_bytes item = .error e →
      OpCodec.encode into_bytes c item dst = (.error e, some dst)) := by
  constructor
  · intro buf hbuf
    have hput : (if dst.remaining_mut < buf.length
          then dst.reserve buf.length else dst).put buf =
        some { data := dst.data ++ buf,
               cap := max dst.cap (dst.data.length + buf.length) } := by
      by_cases h : dst.remaining_mut < buf.length
      · simp only [if_pos h, BytesMut.put, BytesMut.reserve]
        rw [if_pos]
        simp only [BytesMut.remaining_mut]
        omega
      · have hle : buf.length ≤ dst.remaining_mut := Nat.le_of_not_lt h
        have hmax : max dst.cap (dst.data.length + buf.length) = dst.cap := by
          unfold BytesMut.remaining_mut at hle
          omega
        simp only [if_neg h, BytesMut.put, if_pos hle, hmax]
    simp only [OpCodec.encode, hbuf, hput]
  · intro e he
    simp [OpCodec.encode, he]

/-- C6 witness: a serializer producing 4 bytes against a destination
holding 2 bytes with no spare capacity (success case), and a failing
serializer (error case leaves the buffer untouched). -/
theorem C6_encode_appends_or_untouched_witness :
    OpCodec.encode (fun _ => .ok [10, 11, 12, 13]) { next_index := 0 } (0 : Nat)
      { data := [1, 2], cap := 2 } =
      (.ok (), some { data := [1, 2, 10, 11, 12, 13], cap := 6 }) ∧
    OpCodec.encode (fun _ => .error (NatsError.otherErr 3)) { next_index := 0 }
      (0 : Nat) { data := [1, 2], cap := 2 } =
      (.error (NatsError.otherErr 3), some { data := [1, 2], cap := 2 }) :=
  ⟨(C6_encode_appends_or_untouched (fun _ => .ok [10, 11, 12, 13])
      { next_index := 0 } 0 { data := [1, 2], cap := 2 } (by decide)).1
      [10, 11, 12, 13] rfl,
   (C6_encode_appends_or_untouched (fun _ => .error (NatsError.otherErr 3))
      { next_index := 0 } 0 { data := [1, 2], cap := 2 } (by decide)).2
      (NatsError.otherErr 3) rfl⟩

/-- C2: on the upgrade path (a hostname is supplied and the plaintext read
yields `(op, Tcp framed)`), `connect_and_upgrade_if_required` rebuilds the
framed stream around the encrypted socket with exactly the plaintext
stream's unconsumed read and write buffers (no bytes lost or duplicated),
a fresh codec whose scan cursor is 0, and `op` as the pending-first-frame
of the resulting `Tls` variant (as observed by the `first_op` accessor). -/
theorem C2_upgrade_preserves_buffers {TcpIo TlsIo Op : Type}
    (host : Option String) (hostname : String) (tcp_socket : TcpIo)
    (read_first_frame : NatsConnectionInner TcpIo TlsIo Op →
      Option Op × NatsConnectionInner TcpIo TlsIo Op)
    (upgrade : TcpIo → TlsIo)
    (op : Option Op) (framed : Framed TcpIo)
    (hhost : host = some hostname)
    (hread : read_first_frame (NatsConnectionInner.fromTcpStream tcp_socket) =
      (op, NatsConnectionInner.Tcp framed)) :
    NatsConnectionInner.connect_and_upgrade_if_required host tcp_socket
        read_first_frame upgrade =
      NatsConnectionInner.Tls
        (Framed.from_parts
          { io := upgrade framed.parts.io, codec := { next_index := 0 },
            read_buf := framed.parts.read_buf,
            write_buf := framed.parts.write_buf }) op ∧
    (NatsConnectionInner.connect_and_upgrade_if_required host tcp_socket
        read_first_frame upgrade).first_op = op := by
  subst hhost
  have hmain : NatsConnectionInner.connect_and_upgrade_if_required
      (some hostname) tcp_socket read_first_frame upgrade =
      NatsConnectionInner.Tls
        (Framed.from_parts
          { io := upgrade framed.parts.io, codec := { next_index := 0 },
            read_buf := framed.parts.read_buf,
            write_buf := framed.parts.write_buf }) op := by
    simp [NatsConnectionInner.connect_and_upgrade_if_required, hread,
          NatsConnectionInner.upgradeAfterFirstOp, Framed.into_parts,
          FramedParts.mkNew, OpCodec.deflt]
  exact ⟨hmain, by rw [hmain]; rfl⟩

/-- C2 witness: concrete sockets (`Nat`), a plaintext stream whose read
left unconsumed read bytes `[1, 2]` and write bytes `[3]` and a cursor at
2, and a handshake sending socket `0` to socket `100`. -/
theorem C2_upgrade_preserves_buffers_witness :
    NatsConnectionInner.connect_and_upgrade_if_required (some "nats.example")
      (0 : Nat)
      (fun _ => ((some 5 : Option Nat),
        NatsConnectionInner.Tcp (Framed.from_parts
          ({ io := 0, codec := { next_index := 2 }, read_buf := [1, 2],
             write_buf := [3] } : FramedParts Nat))))
      (fun s => s + 100) =
      NatsConnectionInner.Tls
        (Framed.from_parts
          ({ io := 100, codec := { next_index := 0 }, read_buf := [1, 2],
             write_buf := [3] } : FramedParts Nat)) (some 5) ∧
    (NatsConnectionInner.connect_and_upgrade_if_required (some "nats.example")
      (0 : Nat)
      (fun _ => ((some 5 : Option Nat),
        NatsConnectionInner.Tcp (Framed.from_parts
          ({ io := 0, codec := { next_index := 2 }, read_buf := [1, 2],
             write_buf := [3] } : FramedParts Nat))))
      (fun s => s + 100)).first_op = some 5 :=
  C2_upgrade_preserves_buffers (some "nats.example") "nats.example" 0
    (fun _ => (some 5,
      NatsConnectionInner.Tcp (Framed.from_parts
        { io := 0, codec := { next_index := 2 }, read_buf := [1, 2],
          write_buf := [3] })))
    (fun s => s + 100) (some 5)
    (Framed.from_parts
      { io := 0, codec := { next_index := 2 }, read_buf := [1, 2],
        write_buf := [3] }) rfl rfl

/-- Two successive calls to `first_op` on the same connection: `first_op`
takes `&self` (src/net/connection_inner.rs line 84, a shared borrow), so
the call cannot mutate the variant and the second call observes the same
variant as the first. -/
def NatsConnectionInner.first_op_twice {TcpIo TlsIo Op : Type}
    (inner : NatsConnectionInner TcpIo TlsIo Op) : Option Op × Option Op :=
  (inner.first_op, inner.first_op)

/-- C3 counterexample: on a `Tls` variant carrying pending frame `7`, the
first read returns `some 7` and a second read returns `some 7` again — not
`none` as the claim ("clears it on that first read, … a second read
returns nothing") requires. The accessor is a pure getter: it does not
clear the pending frame. -/
theorem C3_first_op_second_read_counterexample :
    NatsConnectionInner.first_op_twice
      (NatsConnectionInner.Tls (Framed.from_parts
        ({ io := 0, codec := { next_index := 0 }, read_buf := [],
           write_buf := [] } : FramedParts Nat)) (some 7) :
        NatsConnectionInner Nat Nat Nat) = (some 7, some 7) ∧
    (some 7 : Option Nat) ≠ none :=
  ⟨rfl, by decide⟩

/-- C3 (amended): the `first_op` accessor returns the `Tls` variant's
pending frame wrapped as an optional value but does not clear it — every
read, including a second one, returns the same frame; on the `Tcp`
(plaintext) variant it returns `none`. -/
theorem C3_first_op_accessor {TcpIo TlsIo Op : Type}
    (f : Framed TlsIo) (op : Option Op) (g : Framed TcpIo) :
    (NatsConnectionInner.Tls f op : NatsConnectionInner TcpIo TlsIo Op).first_op
      = op ∧
    (NatsConnectionInner.Tcp g : NatsConnectionInner TcpIo TlsIo Op).first_op
      = none ∧
    (NatsConnectionInner.Tls f op :
      NatsConnectionInner TcpIo TlsIo Op).first_op_twice = (op, op) :=
  ⟨rfl, rfl, rfl⟩

/-- C7: starting from `Connected`, a disconnection condition runs `reco!`
(state to `Disconnected`, reconnection scheduled), the reconnection task
first sets `Reconnecting`, and on its success the transport slot is
replaced by the new variant and the state becomes `Connected`: the
observable state sequence is exactly
`Connected → Disconnected → Reconnecting → Connected`, the transport is
untouched until the final replacement, and every transition of the system
(`NatsConnection.Step`, one constructor per state-write site in
src/net/connection.rs) is one of these three. -/
theorem C7_reconnection_state_sequence {Addr I Op : Type}
    (c : NatsConnection Addr I Op) (newInner : I)
    (hc : c.state = NatsConnectionState.Connected) :
    NatsConnection.Step c c.recoSetDisconnected ∧
    NatsConnection.Step c.recoSetDisconnected
      c.recoSetDisconnected.reconnectBegin ∧
    NatsConnection.Step c.recoSetDisconnected.reconnectBegin
      (c.recoSetDisconnected.reconnectBegin.reconnectPublish newInner) ∧
    [c.state, c.recoSetDisconnected.state,
     c.recoSetDisconnected.reconnectBegin.state,
     (c.recoSetDisconnected.reconnectBegin.reconnectPublish newInner).state] =
      [NatsConnectionState.Connected, NatsConnectionState.Disconnected,
       NatsConnectionState.Reconnecting, NatsConnectionState.Connected] ∧
    c.recoSetDisconnected.inner = c.inner ∧
    c.recoSetDisconnected.reconnectBegin.inner = c.inner ∧
    (c.recoSetDisconnected.reconnectBegin.reconnectPublish newInner).inner
      = newInner ∧
    (∀ a b : NatsConnection Addr I Op, NatsConnection.Step a b →
      (a.state = NatsConnectionState.Connected ∧
       b.state = NatsConnectionState.Disconnected) ∨
      (a.state = NatsConnectionState.Disconnected ∧
       b.state = NatsConnectionState.Reconnecting) ∨
      (a.state = NatsConnectionState.Reconnecting ∧
       b.state = NatsConnectionState.Connected)) := by
  refine ⟨NatsConnection.Step.stepDisconnect c hc,
    NatsConnection.Step.stepReconnectBegin _ rfl,
    NatsConnection.Step.stepReconnectSuccess _ newInner rfl,
    by rw [hc]; rfl, rfl, rfl, rfl, ?_⟩
  intro a b hstep
  cases hstep with
  | stepDisconnect ha => exact Or.inl ⟨ha, rfl⟩
  | stepReconnectBegin ha => exact Or.inr (Or.inl ⟨ha, rfl⟩)
  | stepReconnectSuccess ni ha => exact Or.inr (Or.inr ⟨ha, rfl⟩)

/-- A concrete connected `NatsConnection` used by the closed witnesses. -/
def connSample : NatsConnection Nat Nat Nat :=
  { is_tls := false, addr := 0, host := none, first_op := none,
    tls_config := NatsClientTlsConfig.deflt, inner := 0,
    state := NatsConnectionState.Connected }

/-- C7 witness: the full sequence evaluated on a concrete connection with
the reconnection task delivering transport `5`. -/
theorem C7_reconnection_state_sequence_witness :
    [connSample.state, connSample.recoSetDisconnected.state,
     connSample.recoSetDisconnected.reconnectBegin.state,
     (connSample.recoSetDisconnected.reconnectBegin.reconnectPublish 5).state]
      = [NatsConnectionState.Connected, NatsConnectionState.Disconnected,
         NatsConnectionState.Reconnecting, NatsConnectionState.Connected] ∧
    (connSample.recoSetDisconnected.reconnectBegin.reconnectPublish 5).inner
      = 5 :=
  ⟨(C7_reconnection_state_sequence connSample 5 rfl).2.2.2.1,
   (C7_reconnection_state_sequence connSample 5 rfl).2.2.2.2.2.2.1⟩

/-- C8: for each public operation (`start_send`, `poll_complete`, `poll`):
if the state lock is missed or the observed state is not `Connected`, or
the transport lock is missed, the operation returns "not ready" and the
connection — in particular the inner transport — is left exactly unchanged,
for every conceivable delegated operation (so nothing is delegated);
otherwise any delegated result other than `Err(ServerDisconnected)` is
passed through to the caller unchanged, with the transport updated only by
the delegated call itself. -/
theorem C8_not_ready_and_passthrough {Addr I Op : Type}
    (c : NatsConnection Addr I Op) (item : Op) :
    (∀ slk ilk : Bool, slk = false ∨ c.state ≠ NatsConnectionState.Connected →
      (∀ f : I → Op → Except NatsError (AsyncSink Op) × I,
        NatsConnection.start_send slk ilk f c item = (.ok (.NotReady item), c)) ∧
      (∀ g : I → Except NatsError (Async Unit) × I,
        NatsConnection.poll_complete slk ilk g c = (.ok .NotReady, c)) ∧
      (∀ p : I → Except NatsError (Async (Option Op)) × I,
        NatsConnection.poll slk ilk p c = (.ok .NotReady, c))) ∧
    ((∀ f : I → Op → Except NatsError (AsyncSink Op) × I,
        NatsConnection.start_send true false f c item = (.ok (.NotReady item), c)) ∧
     (∀ g : I → Except NatsError (Async Unit) × I,
        NatsConnection.poll_complete true false g c = (.ok .NotReady, c)) ∧
     (∀ p : I → Except NatsError (Async (Option Op)) × I,
        NatsConnection.poll true false p c = (.ok .NotReady, c))) ∧
    (c.state = NatsConnectionState.Connected →
      (∀ (f : I → Op → Except NatsError (AsyncSink Op) × I) res inner2,
        f c.inner item = (res, inner2) →
        (∀ code, res ≠ .error (NatsError.ServerDisconnected code)) →
        NatsConnection.start_send true true f c item =
          (res, { c with inner := inner2 })) ∧
      (∀ (g : I → Except NatsError (Async Unit) × I) res inner2,
        g c.inner = (res, inner2) →
        (∀ code, res ≠ .error (NatsError.ServerDisconnected code)) →
        NatsConnection.poll_complete true true g c =
          (res, { c with inner := inner2 })) ∧
      (∀ (p : I → Except NatsError (Async (Option Op)) × I) res inner2,
        p c.inner = (res, inner2) →
        (∀ code, res ≠ .error (NatsError.ServerDisconnected code)) →
        NatsConnection.poll true true p c =
          (res, { c with inner := inner2 }))) := by
  have hgate : ∀ slk : Bool,
      slk = false ∨ c.state ≠ NatsConnectionState.Connected →
      c.stateGateClosed slk = true := by
    intro slk h
    cases slk with
    | false => rfl
    | true =>
        rcases h with h | h
        · exact Bool.noConfusion h
        · simp [NatsConnection.stateGateClosed, h]
  refine ⟨?_, ?_, ?_⟩
  · intro slk ilk h
    refine ⟨fun f => ?_, fun g => ?_, fun p => ?_⟩ <;>
      simp [NatsConnection.start_send, NatsConnection.poll_complete,
            NatsConnection.poll, hgate slk h]
  · refine ⟨fun f => ?_, fun g => ?_, fun p => ?_⟩ <;>
    · by_cases h : c.stateGateClosed true = true <;>
        simp [NatsConnection.start_send, NatsConnection.poll_complete,
              NatsConnection.poll, h]
  · intro hconn
    have hg : c.stateGateClosed true = false := by
      simp [NatsConnection.stateGateClosed, hconn]
    refine ⟨fun f res inner2 hf hres => ?_, fun g res inner2 hg2 hres => ?_,
      fun p res inner2 hp hres => ?_⟩
    · cases res with
      | ok v => simp [NatsConnection.start_send, hg, hf]
      | error e =>
          cases e with
          | ServerDisconnected k => exact absurd rfl (hres k)
          | CommandError ce => simp [NatsConnection.start_send, hg, hf]
          | otherErr n => simp [NatsConnection.start_send, hg, hf]
    · cases res with
      | ok v => simp [NatsConnection.poll_complete, hg, hg2]
      | error e =>
          cases e with
          | ServerDisconnected k => exact absurd rfl (hres k)
          | CommandError ce => simp [NatsConnection.poll_complete, hg, hg2]
          | otherErr n => simp [NatsConnection.poll_complete, hg, hg2]
    · cases res with
      | ok v => simp [NatsConnection.poll, hg, hp]
      | error e =>
          cases e with
          | ServerDisconnected k => exact absurd rfl (hres k)
          | CommandError ce => simp [NatsConnection.poll, hg, hp]
          | otherErr n => simp [NatsConnection.poll, hg, hp]

/-- A connection observed in the `Disconnected` state. -/
def connSampleDisc : NatsConnection Nat Nat Nat :=
  { is_tls := false, addr := 0, host := none, first_op := none,
    tls_config := NatsClientTlsConfig.deflt, inner := 0,
    state := NatsConnectionState.Disconnected }

/-- C8 witness: on a disconnected connection every operation is "not ready"
with the connection unchanged; on a connected connection with a free
transport lock, a delegated `Ok(Ready)` and a delegated non-disconnection
error are both passed through unchanged. -/
theorem C8_not_ready_and_passthrough_witness :
    NatsConnection.start_send true true (fun i _ => (.ok .Ready, i + 1))
      connSampleDisc 9 = (.ok (.NotReady 9), connSampleDisc) ∧
    NatsConnection.poll true false (fun i => (.ok (.Ready (some 4)), i))
      connSampleDisc = (.ok .NotReady, connSampleDisc) ∧
    NatsConnection.start_send true true (fun i _ => (.ok .Ready, i + 1))
      connSample 9 = (.ok .Ready, { connSample with inner := 1 }) ∧
    NatsConnection.poll true true
      (fun i => (.error (NatsError.otherErr 2), i)) connSample =
      (.error (NatsError.otherErr 2), { connSample with inner := 0 }) :=
  ⟨((C8_not_ready_and_passthrough connSampleDisc 9).1 true true
      (Or.inr (by decide))).1 (fun i _ => (.ok .Ready, i + 1)),
   ((C8_not_ready_and_passthrough connSampleDisc 9).2.1).2.2
      (fun i => (.ok (.Ready (some 4)), i)),
   ((C8_not_ready_and_passthrough connSample 9).2.2 rfl).1
      (fun i _ => (.ok .Ready, i + 1)) (.ok .Ready) 1 rfl
      (fun code h => Except.noConfusion h),
   ((C8_not_ready_and_passthrough connSample 9).2.2 rfl).2.2
      (fun i => (.error (NatsError.otherErr 2), i))
      (.error (NatsError.otherErr 2)) 0 rfl
      (fun code h => by simp at h)⟩

/-- Every configuration reachable through the public constructors passes
both re-validations: `identity()` and `root_cert()` return `Ok`. Each
constructor validates the field it sets and leaves the other field
untouched, so validity is preserved along any build chain. -/
theorem builtConfig_validates {Identity Certificate : Type}
    (f : List Nat → String → Except NatsError Identity)
    (g : List Nat → Except NatsError Certificate)
    (cfg : NatsClientTlsConfig)
    (h : NatsClientTlsConfig.Built f g cfg) :
    (∃ i, cfg.identityM f = .ok i) ∧ (∃ r, cfg.root_certM g = .ok r) := by
  induction h with
  | deflt => exact ⟨⟨none, rfl⟩, ⟨none, rfl⟩⟩
  | @pkcs12 c c2 d p hb hok ih =>
      unfold NatsClientTlsConfig.pkcs12_identity at hok
      cases hm : NatsClientTlsConfig.identityM f
          { identity := some (d, p), root_cert := c.root_cert } with
      | ok i =>
          simp only [hm] at hok
          injection hok with hc2
          subst hc2
          refine ⟨⟨i, hm⟩, ?_⟩
          simpa [NatsClientTlsConfig.root_certM] using ih.2
      | error e2 =>
          simp only [hm] at hok
          exact absurd hok (by simp)
  | @rootCert c c2 d hb hok ih =>
      unfold NatsClientTlsConfig.root_cert_der at hok
      cases hm : NatsClientTlsConfig.root_certM g
          { identity := c.identity, root_cert := some d } with
      | ok r =>
          simp only [hm] at hok
          injection hok with hc2
          subst hc2
          refine ⟨?_, ⟨r, hm⟩⟩
          simpa [NatsClientTlsConfig.identityM] using ih.1
      | error e2 =>
          simp only [hm] at hok
          exact absurd hok (by simp)

/-- C9: building the security configuration validates eagerly and exactly —
`pkcs12_identity` (resp. `root_cert_der`) returns an error precisely when
the external validator rejects the supplied material — and for every
configuration reachable through successful constructor calls, the
`identity()`/`root_cert()` re-validations performed by
`upgrade_tcp_to_tls` succeed, so its two `unwrap` calls cannot panic. -/
theorem C9_tls_config_eager_validation {Identity Certificate : Type}
    (f : List Nat → String → Except NatsError Identity)
    (g : List Nat → Except NatsError Certificate)
    (c : NatsClientTlsConfig) (d : List Nat) (p : String) (e : NatsError) :
    (c.pkcs12_identity f d p = .error e ↔ f d p = .error e) ∧
    (c.root_cert_der g d = .error e ↔ g d = .error e) ∧
    (∀ cfg, NatsClientTlsConfig.Built f g cfg →
      (upgradeTlsConfigPhase f g cfg).isSome = true) := by
  refine ⟨?_, ?_, ?_⟩
  · cases hfd : f d p with
    | ok i =>
        simp [NatsClientTlsConfig.pkcs12_identity,
              NatsClientTlsConfig.identityM, hfd]
    | error e2 =>
        simp [NatsClientTlsConfig.pkcs12_identity,
              NatsClientTlsConfig.identityM, hfd]
  · cases hgd : g d with
    | ok r =>
        simp [NatsClientTlsConfig.root_cert_der,
              NatsClientTlsConfig.root_certM, hgd]
    | error e2 =>
        simp [NatsClientTlsConfig.root_cert_der,
              NatsClientTlsConfig.root_certM, hgd]
  · intro cfg hb
    obtain ⟨⟨i, hi⟩, ⟨r, hr⟩⟩ := builtConfig_validates f g cfg hb
    simp [upgradeTlsConfigPhase, hi, hr, Except.unwrapOrPanic]

/-- A PKCS#12 validator rejecting exactly the empty archive. -/
def fromPkcs12Sample : List Nat → String → Except NatsError Unit :=
  fun d _ => if d = [] then .error (NatsError.otherErr 7) else .ok ()

/-- A DER validator rejecting exactly the empty certificate. -/
def fromDerSample : List Nat → Except NatsError Unit :=
  fun d => if d = [] then .error (NatsError.otherErr 8) else .ok ()

/-- C9 witness: a malformed (empty) archive fails at configuration-build
time with the validator's error, and a configuration built from a valid
archive passes the `upgrade_tcp_to_tls` unwrap phase. -/
theorem C9_tls_config_eager_validation_witness :
    NatsClientTlsConfig.deflt.pkcs12_identity fromPkcs12Sample [] "pw" =
      .error (NatsError.otherErr 7) ∧
    (upgradeTlsConfigPhase fromPkcs12Sample fromDerSample
      { identity := some ([1], "pw"), root_cert := none }).isSome = true :=
  ⟨(C9_tls_config_eager_validation fromPkcs12Sample fromDerSample
      NatsClientTlsConfig.deflt [] "pw" (NatsError.otherErr 7)).1.mpr rfl,
   (C9_tls_config_eager_validation fromPkcs12Sample fromDerSample
      NatsClientTlsConfig.deflt [] "pw" (NatsError.otherErr 7)).2.2
      { identity := some ([1], "pw"), root_cert := none }
      (@NatsClientTlsConfig.Built.pkcs12 Unit Unit fromPkcs12Sample
        fromDerSample NatsClientTlsConfig.deflt
        { identity := some ([1], "pw"), root_cert := none } [1] "pw"
        NatsClientTlsConfig.Built.deflt rfl)⟩
